import Mathlib

/-!
Shallow embedding of `src/ethereum_address_info.py` (Etherscan client).

The embedding models:
- the JSON values the client manipulates (`JVal`), together with the Python
  primitives the source applies to them (`str()`, `.lower()`, `in` substring
  test, `int()`, `len()`, `==` against string literals);
- the exception classes of the module and the class hierarchy relevant to the
  `tenacity` retry predicate (`Exc`, `isEthereumAPIError`, `retryPredicate`);
- `_parse_response` (lines 156-178), `_request` (lines 128-151) and the
  `@retry` decorator (lines 117-127: `retry_if_exception_type((Timeout,
  HTTPError, EthereumAPIError))`, `wait_exponential_jitter` with constants 2
  and 10, `stop_after_attempt(3)`, `reraise=True`);
- the three facade operations `get_balance`, `get_transactions`,
  `get_token_balance` and `wei_to_eth` (lines 183-250).

Network behaviour is abstracted by an environment `env : Nat → TransportResult`
giving the transport outcome of each attempt (1-based).  Sleeps (both the
`time.sleep(rate_limit_wait)` of the rate-limit branch and the tenacity
backoff waits) are collected in a log; Python floats are modelled as exact
rationals; the random jitter is a parameter `jitter : Nat → ℚ`.
-/

/-- JSON values as the client sees them: `None`, strings, integers and lists
(transaction records are opaque list elements).  The envelope dict itself is
modelled separately as `Envelope`. -/
inductive JVal
  | null
  | str (s : String)
  | int_ (n : Int)
  | list (xs : List JVal)

/-- Python `x == lit` for a string literal `lit`: true exactly when `x` is that
string (an int, `None` or a list never equals a `str`). -/
def jvalEqStr (v : JVal) (lit : String) : Bool :=
  match v with
  | .str s => s = lit
  | _ => false

/-- ASCII lowercase of one character, as Python `str.lower` acts on ASCII. -/
def pyCharLower (c : Char) : Char :=
  if 65 ≤ c.toNat && c.toNat ≤ 90 then Char.ofNat (c.toNat + 32) else c

/-- Python `str.lower()` (ASCII; the source only ever compares against the
ASCII marker "rate limit"). -/
def pyLower (s : String) : String := String.mk (s.data.map pyCharLower)

/-- Boolean list-prefix test used by the substring check. -/
def listPrefix : List Char → List Char → Bool
  | [], _ => true
  | _ :: _, [] => false
  | a :: as, b :: bs => a == b && listPrefix as bs

/-- Boolean contiguous-sublist test used by the substring check. -/
def listInfix (pat hay : List Char) : Bool :=
  match hay with
  | [] => listPrefix pat []
  | _ :: rest => listPrefix pat hay || listInfix pat rest

/-- Python `pat in hay` on strings: contiguous substring test. -/
def strContains (hay pat : String) : Bool := listInfix pat.data hay.data

mutual

/-- Python `repr()` restricted to the modelled values (string escaping inside
list reprs is not modelled; no claim depends on it). -/
def pyRepr : JVal → String
  | .null => "None"
  | .str s => "\x27" ++ s ++ "\x27"
  | .int_ n => toString n
  | .list xs => "[" ++ String.intercalate ", " (pyReprList xs) ++ "]"

/-- Reprs of the elements of a list value. -/
def pyReprList : List JVal → List String
  | [] => []
  | x :: xs => pyRepr x :: pyReprList xs

end

/-- Python `str()`: identity on strings, `repr` otherwise. -/
def pyStr : JVal → String
  | .str s => s
  | v => pyRepr v

/-- Value of a list of decimal digits. -/
def pyDigitsVal (cs : List Char) : Nat :=
  cs.foldl (fun acc c => 10 * acc + (c.toNat - 48)) 0

/-- Python `int()` applied to a string: optional surrounding whitespace, an
optional sign, then a non-empty run of decimal digits; anything else raises
`ValueError`, modelled as `none`.  (Underscore digit grouping and non-ASCII
digits, which CPython also accepts, are not modelled; no claim uses them.) -/
def pyIntOfStr (s : String) : Option Int :=
  let t := ((s.data.dropWhile Char.isWhitespace).reverse.dropWhile
      Char.isWhitespace).reverse
  match t with
  | [] => none
  | c :: cs =>
    let ds := if c == Char.ofNat 45 || c == Char.ofNat 43 then cs else c :: cs
    if ds.isEmpty then none
    else if ds.all Char.isDigit then
      some (if c == Char.ofNat 45 then -(pyDigitsVal ds : Int)
            else (pyDigitsVal ds : Int))
    else none

/-- Python `int(value)` on a modelled JSON value: ints pass through, strings
are parsed, `None` raises `TypeError` and a list raises `TypeError` — both
modelled as `none`. -/
def pyInt : JVal → Option Int
  | .int_ n => some n
  | .str s => pyIntOfStr s
  | .null => none
  | .list _ => none

/-- Python `len()` on a modelled value: defined for strings and lists,
`TypeError` (`none`) otherwise. -/
def pyLen : JVal → Option Nat
  | .str s => some s.length
  | .list xs => some xs.length
  | _ => none

/-- Configuration dataclass `EthereumAPIConfig` (lines 80-88), with the
source's field names and defaults. -/
structure EthereumAPIConfig where
  api_key : String
  address : String
  timeout : Nat := 10
  max_retries : Nat := 3
  backoff_multiplier : ℚ := 2
  max_backoff : ℚ := 10
  rate_limit_wait : Nat := 5

/-- The exceptions that can escape one execution of the body of `_request`:
`requests` exceptions `Timeout` and `HTTPError` are re-raised as-is (lines
140-145); any other `RequestException` becomes `EthereumAPIError` (lines
146-147); a JSON decode `ValueError` becomes `EthereumResponseError` (lines
148-149); `_parse_response` raises `EthereumRateLimitError`,
`EthereumResponseError` or `EthereumAPIError` (lines 156-178). -/
inductive Exc
  | timeout
  | httpError
  | apiError (msg : String)
  | rateLimitError (msg : String)
  | responseError (msg : String)
deriving DecidableEq

/-- Python `isinstance(e, EthereumAPIError)`: `EthereumRateLimitError` and
`EthereumResponseError` are declared as subclasses of `EthereumAPIError`
(lines 65-74). -/
def isEthereumAPIError : Exc → Bool
  | .apiError _ => true
  | .rateLimitError _ => true
  | .responseError _ => true
  | _ => false

/-- The decorator's `retry_if_exception_type((Timeout, HTTPError,
EthereumAPIError))` predicate (lines 118-120): an exception is retryable when
it is an instance of one of the three classes. -/
def retryPredicate (e : Exc) : Bool :=
  (match e with | .timeout => true | _ => false)
  || (match e with | .httpError => true | _ => false)
  || isEthereumAPIError e

/-- The provider envelope as `_parse_response` reads it out of the dict:
`status := data.get("status")` (a missing key yields `JVal.null`),
`message := data.get("message", "")` (a missing key yields `JVal.str ""`),
`result := data.get("result")` (a missing key yields `JVal.null`)
(lines 160-162). -/
structure Envelope where
  status : JVal
  message : JVal
  result : JVal

/-- A successfully JSON-decoded response body: either a dict (the envelope
read as above) or some non-dict value, which `_parse_response` rejects at
line 157. -/
inductive Body
  | dict (d : Envelope)
  | nonDict

/-- Transport outcome of a single attempt: timeout, HTTP status error, any
other `RequestException` (DNS, connection refused, TLS failure), a body that
is not valid JSON, or a decoded JSON body. -/
inductive TransportResult
  | timeout
  | httpStatusError
  | otherError (msg : String)
  | invalidJson
  | jsonBody (b : Body)

/-- Sleeps performed during a call: `time.sleep(rate_limit_wait)` inside the
rate-limit branch of `_parse_response` (line 172), and the tenacity backoff
wait between attempts. -/
inductive SleepEvent
  | rateLimitSleep (seconds : Nat)
  | backoffWait (seconds : ℚ)

/-- `_parse_response` (lines 156-178).  Order of checks as in the source:
non-dict rejection; `status == "1"` success; rate-limit marker in the
lowercased `message` or in `str(result).lower()` (sleep, then raise
`EthereumRateLimitError`); the `status == "0"` / `"No transactions found"`
sentinel (empty list); otherwise `EthereumAPIError` carrying
`message or result` (note the source interpolates the already-lowercased
`message`). -/
def parseResponse (cfg : EthereumAPIConfig) (b : Body) :
    List SleepEvent × Except Exc JVal :=
  match b with
  | .nonDict => ([], .error (.responseError "Unexpected response format"))
  | .dict d =>
    let message := pyLower (pyStr d.message)
    let result := d.result
    if jvalEqStr d.status "1" then
      ([], .ok result)
    else if strContains message "rate limit"
        || strContains (pyLower (pyStr result)) "rate limit" then
      ([SleepEvent.rateLimitSleep cfg.rate_limit_wait],
       .error (.rateLimitError "Rate limit reached"))
    else if jvalEqStr d.status "0" && jvalEqStr result "No transactions found"
        then
      ([], .ok (JVal.list []))
    else
      ([], .error (.apiError ("Etherscan error: "
        ++ (if message = "" then pyStr result else message))))

/-- One execution of the body of `_request` (lines 128-151), given the
transport outcome of this attempt.  Returns the sleeps performed and either
the parsed payload or the exception raised to the retry decorator. -/
def requestAttempt (cfg : EthereumAPIConfig) (t : TransportResult) :
    List SleepEvent × Except Exc JVal :=
  match t with
  | .timeout => ([], .error .timeout)
  | .httpStatusError => ([], .error .httpError)
  | .otherError m => ([], .error (.apiError ("Network error: " ++ m)))
  | .invalidJson => ([], .error (.responseError "Invalid JSON response"))
  | .jsonBody b => parseResponse cfg b

/-- The tenacity wait after a failed attempt number `n`: an exponential term
with the decorator's hardcoded constants 2 and 10 plus the random jitter,
capped at 10 (lines 121-124).  The configuration fields `backoff_multiplier`
and `max_backoff` are not consulted by the decorator. -/
def tenacityWait (jitter : Nat → ℚ) (attempt : Nat) : ℚ :=
  min (2 ^ attempt + jitter attempt) 10

/-- Observable outcome of a `_request` call: the sleeps performed in order,
the number of attempts executed (each attempt is one HTTP GET), and the final
payload or exception. -/
structure RunResult where
  sleeps : List SleepEvent
  attempts : Nat
  result : Except Exc JVal

/-- The tenacity retry loop: attempt number `n`, with `r` retries still
allowed by `stop_after_attempt`.  A failure whose exception matches the retry
predicate is retried after the backoff wait while retries remain; once the
stop condition is reached the last exception is re-raised (`reraise=True`).
A non-matching exception would propagate at once (with the module's exception
set this branch is unreachable, since every `Exc` matches the predicate). -/
def retryLoop (jitter : Nat → ℚ) (cfg : EthereumAPIConfig)
    (env : Nat → TransportResult) : Nat → Nat → RunResult
  | n, 0 =>
    let a := requestAttempt cfg (env n)
    ⟨a.1, 1, a.2⟩
  | n, r + 1 =>
    let a := requestAttempt cfg (env n)
    match a.2 with
    | .ok v => ⟨a.1, 1, .ok v⟩
    | .error e =>
      if retryPredicate e then
        let rest := retryLoop jitter cfg env (n + 1) r
        ⟨a.1 ++ SleepEvent.backoffWait (tenacityWait jitter n) :: rest.sleeps,
         rest.attempts + 1, rest.result⟩
      else ⟨a.1, 1, .error e⟩

/-- A full `_request` call under the decorator (lines 117-127):
`stop_after_attempt(3)` budgets exactly 3 attempts — a hardcoded constant,
independent of `cfg.max_retries`. -/
def executorRun (jitter : Nat → ℚ) (cfg : EthereumAPIConfig)
    (env : Nat → TransportResult) : RunResult :=
  retryLoop jitter cfg env 1 2

/-- Static method `wei_to_eth` (lines 183-192): `int(value) / 10**decimals`,
with the `TypeError`/`ValueError` handler returning `0.0`.  Floats are
modelled as exact rationals; `decimals` is modelled as the nonnegative count
actually used by the call sites. -/
def wei_to_eth (value : JVal) (decimals : Nat) : ℚ :=
  match pyInt value with
  | some n => (n : ℚ) / 10 ^ decimals
  | none => 0

/-- Errors observable from a facade operation: an exception propagated from
`_request`, or the `TypeError` that `len()` at line 224 would raise on a
non-sized payload. -/
inductive PyErr
  | exc (e : Exc)
  | typeError

/-- `get_balance` (lines 197-207): delegates to `_request` and converts the
payload with `wei_to_eth` at the fixed 18 decimals. -/
def get_balance_run (jitter : Nat → ℚ) (cfg : EthereumAPIConfig)
    (env : Nat → TransportResult) : Except Exc ℚ :=
  match (executorRun jitter cfg env).result with
  | .ok v => .ok (wei_to_eth v 18)
  | .error e => .error e

/-- `get_transactions` (lines 209-225): delegates to `_request`, then
evaluates `len(txs)` for the log line before returning the payload
unchanged. -/
def get_transactions_run (jitter : Nat → ℚ) (cfg : EthereumAPIConfig)
    (env : Nat → TransportResult) : Except PyErr JVal :=
  match (executorRun jitter cfg env).result with
  | .error e => .error (PyErr.exc e)
  | .ok v =>
    match pyLen v with
    | some _ => .ok v
    | none => .error PyErr.typeError

/-- Python truthiness test `not contract_address` (line 232): true for `None`
and for the empty string. -/
def pyFalsy : Option String → Bool
  | none => true
  | some s => s.isEmpty

/-- `get_token_balance` (lines 227-250): returns `None` immediately when the
contract address is empty or unset; otherwise delegates to `_request` and
converts with the caller-supplied decimals.  The first component counts the
HTTP GET attempts performed (0 when the executor is never invoked). -/
def get_token_balance_run (jitter : Nat → ℚ) (cfg : EthereumAPIConfig)
    (env : Nat → TransportResult) (contract_address : Option String)
    (decimals : Nat) : Nat × Except Exc (Option ℚ) :=
  if pyFalsy contract_address then (0, Except.ok none)
  else
    let r := executorRun jitter cfg env
    (r.attempts,
     match r.result with
     | .ok v => .ok (some (wei_to_eth v decimals))
     | .error e => .error e)

/-- Parameter mapping built by `get_balance` (lines 198-203). -/
def balance_params (cfg : EthereumAPIConfig) : List (String × String) :=
  [("module", "account"), ("action", "balance"),
   ("address", cfg.address), ("tag", "latest")]

/-- Parameter mapping built by `get_transactions` (lines 215-222). -/
def txlist_params (cfg : EthereumAPIConfig) (start_block end_block : Nat)
    (sort : String) : List (String × String) :=
  [("module", "account"), ("action", "txlist"), ("address", cfg.address),
   ("startblock", toString start_block), ("endblock", toString end_block),
   ("sort", sort)]

/-- Parameter mapping built by `get_token_balance` (lines 236-242). -/
def tokenbalance_params (cfg : EthereumAPIConfig)
    (contract_address : String) : List (String × String) :=
  [("module", "account"), ("action", "tokenbalance"),
   ("contractaddress", contract_address), ("address", cfg.address),
   ("tag", "latest")]

/-- Python dict-merge semantics of a string-keyed dict, as an association
list with unique keys kept in insertion order: `\x7b**d, k: v\x7d` keeps the
position of an existing key `k` with the new value, otherwise appends the new
pair at the end. -/
def dictSet : List (String × String) → String → String →
    List (String × String)
  | [], k, v => [(k, v)]
  | p :: rest, k, v =>
    if p.1 = k then (k, v) :: rest else p :: dictSet rest k v

/-- Dict lookup on the association-list model. -/
def dictGet : List (String × String) → String → Option String
  | [], _ => none
  | p :: rest, k => if p.1 = k then some p.2 else dictGet rest k

/-- Line 129 of `_request`: `params = \x7b**params, "apikey": ...\x7d` builds
a fresh dict and rebinds the local name; the caller's dict object is never
mutated.  The pair returned is (the params actually sent, the caller's
mapping after the call). -/
def request_params (cfg : EthereumAPIConfig)
    (params : List (String × String)) :
    List (String × String) × List (String × String) :=
  (dictSet params "apikey" cfg.api_key, params)

/-- Outcome classes of the specification's classification step (section 4.1
of the spec). -/
inductive SpecOutcome
  | success (v : JVal)
  | emptyOk
  | transportRetryable
  | rateLimited
  | fatal (msg : String)

/-- Modelled from the spec (section 4.1, steps 2-5), for comparison with the
code: timeout/HTTP-status errors are transport-retryable; other transport
exceptions and malformed bodies are fatal `ProviderError`; a `status == "1"`
envelope succeeds; a `status == "0"` envelope carrying the no-records
sentinel is an empty result; a rate-limit-marked envelope is `RateLimited`;
any other `status == "0"` envelope is fatal. -/
def spec_classify (t : TransportResult) : SpecOutcome :=
  match t with
  | .timeout => .transportRetryable
  | .httpStatusError => .transportRetryable
  | .otherError m => .fatal ("Network error: " ++ m)
  | .invalidJson => .fatal "malformed response"
  | .jsonBody .nonDict => .fatal "malformed response"
  | .jsonBody (.dict d) =>
    if jvalEqStr d.status "1" then .success d.result
    else if jvalEqStr d.status "0"
        && jvalEqStr d.result "No transactions found" then .emptyOk
    else if strContains (pyLower (pyStr d.message)) "rate limit"
        || strContains (pyLower (pyStr d.result)) "rate limit" then
      .rateLimited
    else .fatal (pyStr d.message)

/-- Error taxonomy of the specification (section 7). -/
inductive SpecErr
  | providerError (msg : String)
  | rateLimitError
  | retryExhausted

/-- Modelled from the spec (section 4.1 step 5 and the open question in
section 9): the reference executor whose transport retries and rate-limit
retries are counted on two separate counters, each budgeted with
`max_retries` attempts of its own.  `tUsed`/`rUsed` count the attempts spent
in each category; `fuel` bounds the recursion (it never runs out when set to
the sum of both budgets). -/
def spec_two_counter_aux (cfg : EthereumAPIConfig)
    (env : Nat → TransportResult) :
    Nat → Nat → Nat → Nat → Except SpecErr JVal
  | 0, _, _, _ => Except.error SpecErr.retryExhausted
  | fuel + 1, n, tUsed, rUsed =>
    match spec_classify (env n) with
    | .success v => .ok v
    | .emptyOk => .ok (JVal.list [])
    | .fatal m => .error (.providerError m)
    | .transportRetryable =>
      if cfg.max_retries ≤ tUsed + 1 then .error .retryExhausted
      else spec_two_counter_aux cfg env fuel (n + 1) (tUsed + 1) rUsed
    | .rateLimited =>
      if cfg.max_retries ≤ rUsed + 1 then .error .rateLimitError
      else spec_two_counter_aux cfg env fuel (n + 1) tUsed (rUsed + 1)

/-- Modelled from the spec: the two-counter reference executor started on
fresh counters. -/
def spec_two_counter_run (cfg : EthereumAPIConfig)
    (env : Nat → TransportResult) : Except SpecErr JVal :=
  spec_two_counter_aux cfg env (2 * cfg.max_retries + 1) 1 0 0

/-- Jitter fixed to zero, an admissible draw of the uniform jitter. -/
def zeroJitter : Nat → ℚ := fun _ => 0

/-- A configuration holding all the dataclass defaults. -/
def cfgDefault : EthereumAPIConfig := ⟨"k", "0xaddr", 10, 3, 2, 10, 5⟩

/-- A configuration with `max_retries = 1` and every other field at its
default. -/
def cfgMaxRetriesOne : EthereumAPIConfig := ⟨"k", "0xaddr", 10, 1, 2, 10, 5⟩

/-- A successful envelope carrying payload `v`. -/
def okEnvelope (v : JVal) : Envelope := ⟨JVal.str "1", JVal.str "OK", v⟩

/-- A rate-limited envelope: the provider's marker appears in `message`. -/
def rateLimitEnvelope : Envelope :=
  ⟨JVal.str "0", JVal.str "Max rate limit reached", JVal.null⟩

/-- The no-records envelope of the spec's example:
status "0", no message, result "No transactions found". -/
def noTxEnvelope : Envelope :=
  ⟨JVal.str "0", JVal.str "", JVal.str "No transactions found"⟩

/-- Environment for C1: a non-timeout, non-HTTP-status transport failure
(connection refused) on attempt 1, then success. -/
def envC1 : Nat → TransportResult := fun n =>
  if n = 1 then TransportResult.otherError "refused"
  else TransportResult.jsonBody (Body.dict (okEnvelope (JVal.str "42")))

/-- Environment for C2: one transport timeout, then rate-limited envelopes on
attempts 2 and 3, then success from attempt 4 on. -/
def envC2 : Nat → TransportResult := fun n =>
  if n = 1 then TransportResult.timeout
  else if n ≤ 3 then TransportResult.jsonBody (Body.dict rateLimitEnvelope)
  else TransportResult.jsonBody (Body.dict (okEnvelope (JVal.str "42")))

/-- Environment for C3: three consecutive transport timeouts, then success
from attempt 4 on. -/
def envC3 : Nat → TransportResult := fun n =>
  if n ≤ 3 then TransportResult.timeout
  else TransportResult.jsonBody (Body.dict (okEnvelope (JVal.str "7")))

/-- Environment for C4: one transport timeout, then success. -/
def envC4 : Nat → TransportResult := fun n =>
  if n = 1 then TransportResult.timeout
  else TransportResult.jsonBody (Body.dict (okEnvelope (JVal.str "7")))

/-- Environment answering every attempt with the rate-limited envelope. -/
def envRateLimited : Nat → TransportResult := fun _ =>
  TransportResult.jsonBody (Body.dict rateLimitEnvelope)

/-- Environment answering every attempt with the spec's balance example
envelope: status "1", result "1000000000000000000". -/
def envBal : Nat → TransportResult := fun _ =>
  TransportResult.jsonBody
    (Body.dict (okEnvelope (JVal.str "1000000000000000000")))

/-- Environment answering every attempt with the no-records envelope. -/
def envNoTx : Nat → TransportResult := fun _ =>
  TransportResult.jsonBody (Body.dict noTxEnvelope)

/-- Environment for the C7 counterexample: every attempt returns an envelope
with status "0", result equal to the no-records sentinel, and a message that
contains the rate-limit marker. -/
def envSentinelWithMarker : Nat → TransportResult := fun _ =>
  TransportResult.jsonBody (Body.dict
    ⟨JVal.str "0", JVal.str "Rate limit reached",
     JVal.str "No transactions found"⟩)

/-- The body of `_request` reads only `rate_limit_wait` from the
configuration: its outcome is invariant under changes to every other field. -/
theorem requestAttempt_cfg_inv (cfg cfg2 : EthereumAPIConfig)
    (h : cfg.rate_limit_wait = cfg2.rate_limit_wait) (t : TransportResult) :
    requestAttempt cfg t = requestAttempt cfg2 t := by
  cases t with
  | jsonBody b =>
    cases b with
    | dict d => simp only [requestAttempt, parseResponse, h]
    | nonDict => rfl
  | _ => rfl

/-- The whole retry loop is invariant under configuration changes that keep
`rate_limit_wait`: neither the attempt budget nor the backoff consults the
configuration. -/
theorem retryLoop_cfg_inv (jitter : Nat → ℚ) (cfg cfg2 : EthereumAPIConfig)
    (h : cfg.rate_limit_wait = cfg2.rate_limit_wait)
    (env : Nat → TransportResult) :
    ∀ r n, retryLoop jitter cfg env n r = retryLoop jitter cfg2 env n r := by
  intro r
  induction r with
  | zero => intro n; simp only [retryLoop, requestAttempt_cfg_inv cfg cfg2 h]
  | succ r ih =>
    intro n
    simp only [retryLoop, requestAttempt_cfg_inv cfg cfg2 h, ih]

/-- The retry loop started with `r` retries left executes at most `r + 1`
attempts. -/
theorem retryLoop_attempts_le (jitter : Nat → ℚ) (cfg : EthereumAPIConfig)
    (env : Nat → TransportResult) :
    ∀ r n, (retryLoop jitter cfg env n r).attempts ≤ r + 1 := by
  intro r
  induction r with
  | zero => intro n; simp [retryLoop]
  | succ r ih =>
    intro n
    simp only [retryLoop]
    cases (requestAttempt cfg (env n)).2 with
    | ok v => simp
    | error e =>
      by_cases hp : retryPredicate e = true
      · simp only [hp, if_true]
        exact Nat.succ_le_succ (ih (n + 1))
      · simp only [Bool.not_eq_true] at hp
        simp only [hp, Bool.false_eq_true, if_false]
        omega

/-- Updating key `k` makes lookup of `k` return the new value. -/
theorem dictGet_dictSet_self (k v : String) :
    ∀ d : List (String × String), dictGet (dictSet d k v) k = some v := by
  intro d
  induction d with
  | nil => simp [dictGet, dictSet]
  | cons p rest ih =>
    by_cases h : p.1 = k
    · simp [dictSet, dictGet, h]
    · simp [dictSet, dictGet, h, ih]

/-- Updating key `k` leaves lookup of any other key unchanged. -/
theorem dictGet_dictSet_ne (k v k2 : String) (hk : k2 ≠ k) :
    ∀ d : List (String × String),
      dictGet (dictSet d k v) k2 = dictGet d k2 := by
  intro d
  induction d with
  | nil => simp [dictGet, dictSet, Ne.symm hk]
  | cons p rest ih =>
    by_cases h : p.1 = k
    · have hne : p.1 ≠ k2 := by rw [h]; exact Ne.symm hk
      simp [dictSet, dictGet, h, hne, Ne.symm hk]
    · by_cases h2 : p.1 = k2
      · simp [dictSet, dictGet, h, h2, hk]
      · simp [dictSet, dictGet, h, h2, ih]

/-- C1 counterexample: a connection-refused transport failure on attempt 1 is
wrapped as `EthereumAPIError` and retried rather than surfaced immediately —
the call consumes a second attempt and succeeds, so the failure was neither
surfaced on first occurrence nor left unretried. -/
theorem C1_counterexample :
    envC1 1 = TransportResult.otherError "refused" ∧
    (executorRun zeroJitter cfgDefault envC1).result = .ok (JVal.str "42") ∧
    (executorRun zeroJitter cfgDefault envC1).attempts = 2 :=
  ⟨rfl, rfl, rfl⟩

/-- C1 (amended): a transport exception other than timeout or HTTP-status
error is wrapped as `EthereumAPIError`, and a malformed body raises
`EthereumResponseError`; both match the decorator's retry predicate (because
`retry_if_exception_type` lists `EthereumAPIError` and both are instances of
it), so they are retried under the shared 3-attempt budget instead of failing
on first occurrence: after such a failure on attempt 1, a successful attempt
2 makes the call succeed. -/
theorem C1_provider_errors_are_retried (jitter : Nat → ℚ)
    (cfg : EthereumAPIConfig) (env : Nat → TransportResult) (m : String)
    (v : JVal)
    (h1 : env 1 = TransportResult.otherError m)
    (h2 : env 2 = TransportResult.jsonBody (Body.dict (okEnvelope v))) :
    retryPredicate (Exc.apiError ("Network error: " ++ m)) = true ∧
    retryPredicate (Exc.responseError "Invalid JSON response") = true ∧
    (executorRun jitter cfg env).result = .ok v ∧
    (executorRun jitter cfg env).attempts = 2 := by
  have hstep1 : requestAttempt cfg (env 1)
      = ([], .error (Exc.apiError ("Network error: " ++ m))) := by
    rw [h1]; rfl
  have hstep2 : requestAttempt cfg (env 2) = ([], .ok v) := by
    rw [h2]; rfl
  refine ⟨rfl, rfl, ?_, ?_⟩ <;>
    simp only [executorRun, retryLoop, hstep1, hstep2, retryPredicate,
      isEthereumAPIError, Bool.or_true, if_true]

/-- C1 witness: the amended theorem evaluated on the concrete environment
`envC1`. -/
theorem C1_witness :
    retryPredicate (Exc.apiError ("Network error: " ++ "refused")) = true ∧
    retryPredicate (Exc.responseError "Invalid JSON response") = true ∧
    (executorRun zeroJitter cfgDefault envC1).result = .ok (JVal.str "42") ∧
    (executorRun zeroJitter cfgDefault envC1).attempts = 2 :=
  C1_provider_errors_are_retried zeroJitter cfgDefault envC1 "refused"
    (JVal.str "42") rfl rfl

/-- C2 counterexample: the rate-limit retries share one tenacity counter with
transport retries rather than being separately budgeted.  On the environment
timeout, rate-limited, rate-limited, success, the code fails with
`EthereumRateLimitError` after 3 total attempts — only 2 rate-limited
attempts were consumed, so a separate budget of `max_retries = 3` rate-limit
attempts was not exhausted, and indeed the spec-modelled two-counter executor
succeeds on the same environment. -/
theorem C2_counterexample :
    (executorRun zeroJitter cfgDefault envC2).result
      = .error (Exc.rateLimitError "Rate limit reached") ∧
    (executorRun zeroJitter cfgDefault envC2).attempts = 3 ∧
    cfgDefault.max_retries = 3 ∧
    spec_two_counter_run cfgDefault envC2 = .ok (JVal.str "42") :=
  ⟨rfl, rfl, rfl, rfl⟩

/-- C2 (amended): an envelope carrying the rate-limit marker makes
`_parse_response` sleep for `rate_limit_wait` seconds and raise
`EthereumRateLimitError`, which the decorator retries on the same shared
3-attempt budget as transport failures (with the exponential backoff wait
additionally applied between attempts); when the shared budget is exhausted
with a rate-limit failure last, the call fails with
`EthereumRateLimitError`. -/
theorem C2_rate_limit_shared_budget (jitter : Nat → ℚ)
    (cfg : EthereumAPIConfig) (env : Nat → TransportResult)
    (h : ∀ n, env n = TransportResult.jsonBody (Body.dict rateLimitEnvelope)) :
    executorRun jitter cfg env =
      ⟨[SleepEvent.rateLimitSleep cfg.rate_limit_wait,
        SleepEvent.backoffWait (tenacityWait jitter 1),
        SleepEvent.rateLimitSleep cfg.rate_limit_wait,
        SleepEvent.backoffWait (tenacityWait jitter 2),
        SleepEvent.rateLimitSleep cfg.rate_limit_wait],
       3, .error (Exc.rateLimitError "Rate limit reached")⟩ := by
  have he : env = fun _ =>
      TransportResult.jsonBody (Body.dict rateLimitEnvelope) := funext h
  subst he
  rfl

/-- C2 witness: the amended theorem evaluated on the constant rate-limited
environment with the default configuration. -/
theorem C2_witness :
    executorRun zeroJitter cfgDefault envRateLimited =
      ⟨[SleepEvent.rateLimitSleep 5,
        SleepEvent.backoffWait (tenacityWait zeroJitter 1),
        SleepEvent.rateLimitSleep 5,
        SleepEvent.backoffWait (tenacityWait zeroJitter 2),
        SleepEvent.rateLimitSleep 5],
       3, .error (Exc.rateLimitError "Rate limit reached")⟩ :=
  C2_rate_limit_shared_budget zeroJitter cfgDefault envRateLimited
    (fun _ => rfl)

/-- C3 counterexample: with the default `max_retries = 3` and three
consecutive transport timeouts (attempt 4 would succeed), the call fails
after exactly 3 attempts — but, because the decorator sets `reraise=True`,
the error surfaced is the underlying `Timeout` itself, not a distinct
`RetryExhausted` value (no such exception exists in the module). -/
theorem C3_counterexample :
    envC3 4 = TransportResult.jsonBody (Body.dict (okEnvelope (JVal.str "7")))
      ∧
    cfgDefault.max_retries = 3 ∧
    (executorRun zeroJitter cfgDefault envC3).result = .error Exc.timeout ∧
    (executorRun zeroJitter cfgDefault envC3).attempts = 3 :=
  ⟨rfl, rfl, rfl, rfl⟩

/-- C3 (amended): three consecutive transport timeouts exhaust the 3-attempt
budget and the call fails by re-raising the underlying `Timeout`
(`reraise=True`), regardless of what a fourth attempt would have returned. -/
theorem C3_timeouts_exhaust_budget (jitter : Nat → ℚ)
    (cfg : EthereumAPIConfig) (env : Nat → TransportResult)
    (h1 : env 1 = TransportResult.timeout)
    (h2 : env 2 = TransportResult.timeout)
    (h3 : env 3 = TransportResult.timeout) :
    (executorRun jitter cfg env).result = .error Exc.timeout ∧
    (executorRun jitter cfg env).attempts = 3 := by
  have hstep1 : requestAttempt cfg (env 1) = ([], .error Exc.timeout) := by
    rw [h1]; rfl
  have hstep2 : requestAttempt cfg (env 2) = ([], .error Exc.timeout) := by
    rw [h2]; rfl
  have hstep3 : requestAttempt cfg (env 3) = ([], .error Exc.timeout) := by
    rw [h3]; rfl
  refine ⟨?_, ?_⟩ <;>
    simp only [executorRun, retryLoop, hstep1, hstep2, hstep3, retryPredicate,
      Bool.true_or, if_true]

/-- C3 witness: the amended theorem evaluated on the three-timeouts
environment. -/
theorem C3_witness :
    (executorRun zeroJitter cfgDefault envC3).result = .error Exc.timeout ∧
    (executorRun zeroJitter cfgDefault envC3).attempts = 3 :=
  C3_timeouts_exhaust_budget zeroJitter cfgDefault envC3 rfl rfl rfl

/-- C4 counterexample: the decorator ignores the configuration.  With
`max_retries = 1` the claim's budget admits a single attempt, yet on a
timeout-then-success environment the code still performs 2 attempts and
succeeds, because `stop_after_attempt(3)` is hardcoded. -/
theorem C4_counterexample :
    cfgMaxRetriesOne.max_retries = 1 ∧
    (executorRun zeroJitter cfgMaxRetriesOne envC4).attempts = 2 ∧
    (executorRun zeroJitter cfgMaxRetriesOne envC4).result
      = .ok (JVal.str "7") :=
  ⟨rfl, rfl, rfl⟩

/-- C4 (amended): the retry policy is hardcoded in the decorator, not driven
by the configuration: the executor's behaviour is invariant under any change
of `max_retries`, `backoff_multiplier`, `max_backoff` (and every field other
than `rate_limit_wait`); the attempt budget is the constant 3; and the
backoff delay after attempt `n` is min(2^n + jitter, 10) with the constants 2
and 10.  The recognized fields and their defaults do exist on the dataclass
(default `max_retries = 3`, `backoff_multiplier = 2`, `max_backoff = 10`),
so the defaults coincide with the hardcoded behaviour. -/
theorem C4_config_not_consulted (jitter : Nat → ℚ)
    (cfg cfg2 : EthereumAPIConfig) (env : Nat → TransportResult)
    (h : cfg.rate_limit_wait = cfg2.rate_limit_wait) :
    executorRun jitter cfg env = executorRun jitter cfg2 env ∧
    (executorRun jitter cfg env).attempts ≤ 3 ∧
    tenacityWait jitter 1 = min (2 ^ 1 + jitter 1) 10 ∧
    tenacityWait jitter 2 = min (2 ^ 2 + jitter 2) 10 ∧
    cfgDefault.max_retries = 3 ∧ cfgDefault.backoff_multiplier = 2 ∧
    cfgDefault.max_backoff = 10 :=
  ⟨retryLoop_cfg_inv jitter cfg cfg2 h env 2 1,
   retryLoop_attempts_le jitter cfg env 2 1, rfl, rfl, rfl, rfl, rfl⟩

/-- C4 witness: the amended theorem evaluated at the default configuration
against a configuration with `max_retries = 1`. -/
theorem C4_witness :
    executorRun zeroJitter cfgDefault envC4
      = executorRun zeroJitter cfgMaxRetriesOne envC4 ∧
    (executorRun zeroJitter cfgDefault envC4).attempts ≤ 3 ∧
    tenacityWait zeroJitter 1 = min (2 ^ 1 + zeroJitter 1) 10 ∧
    tenacityWait zeroJitter 2 = min (2 ^ 2 + zeroJitter 2) 10 ∧
    cfgDefault.max_retries = 3 ∧ cfgDefault.backoff_multiplier = 2 ∧
    cfgDefault.max_backoff = 10 :=
  C4_config_not_consulted zeroJitter cfgDefault cfgMaxRetriesOne envC4 rfl

/-- C5: `wei_to_eth` is total and yields 0.0 on bad input — for a string that
`int()` rejects, for `None`, and for a list payload, the conversion returns 0
(the `except (TypeError, ValueError)` handler at lines 190-192); being a total
Lean function, it raises nothing. -/
theorem C5_conversion_total_zero_on_bad_input (d : Nat) (s : String)
    (xs : List JVal) (h : pyIntOfStr s = none) :
    wei_to_eth (JVal.str s) d = 0 ∧
    wei_to_eth JVal.null d = 0 ∧
    wei_to_eth (JVal.list xs) d = 0 := by
  refine ⟨?_, rfl, rfl⟩
  simp [wei_to_eth, pyInt, h]

/-- C5 witness: the theorem evaluated at the non-numeric string
"not a number" with 18 decimals. -/
theorem C5_witness :
    pyIntOfStr "not a number" = none ∧
    (wei_to_eth (JVal.str "not a number") 18 = 0 ∧
     wei_to_eth JVal.null 18 = 0 ∧
     wei_to_eth (JVal.list []) 18 = 0) :=
  ⟨rfl, C5_conversion_total_zero_on_bad_input 18 "not a number" [] rfl⟩

/-- C6: for every decimal string `q` that `int()` parses to `n` and every
decimal count `d`, `wei_to_eth` returns exactly `n / 10^d` (floats are
modelled as exact rationals); and `get_balance` on the envelope with status
"1" and result "1000000000000000000" returns 1.0 via the fixed 18-decimal
conversion. -/
theorem C6_conversion_exact (q : String) (n : Int) (d : Nat)
    (jitter : Nat → ℚ) (cfg : EthereumAPIConfig)
    (h : pyIntOfStr q = some n) :
    wei_to_eth (JVal.str q) d = (n : ℚ) / 10 ^ d ∧
    get_balance_run jitter cfg envBal = .ok 1 := by
  constructor
  · simp [wei_to_eth, pyInt, h]
  · show Except.ok (wei_to_eth (JVal.str "1000000000000000000") 18) = _
    rw [show wei_to_eth (JVal.str "1000000000000000000") 18 = 1 from by
      show ((1000000000000000000 : Int) : ℚ) / 10 ^ 18 = 1
      norm_num]

/-- C6 witness: the theorem evaluated at q = "2500000000000000000",
d = 18, with the default configuration. -/
theorem C6_witness :
    pyIntOfStr "2500000000000000000" = some 2500000000000000000 ∧
    (wei_to_eth (JVal.str "2500000000000000000") 18
        = ((2500000000000000000 : Int) : ℚ) / 10 ^ 18 ∧
     get_balance_run zeroJitter cfgDefault envBal = .ok 1) :=
  ⟨rfl, C6_conversion_exact "2500000000000000000" 2500000000000000000 18
    zeroJitter cfgDefault rfl⟩

/-- C7 counterexample: an envelope with status "0" and result equal to the
no-records sentinel, but whose message contains the rate-limit marker, does
not yield an empty sequence — `_parse_response` checks the rate-limit marker
first, so `get_transactions` fails with `EthereumRateLimitError` (after the
retry budget) instead of returning `[]`. -/
theorem C7_counterexample :
    envSentinelWithMarker 1 = TransportResult.jsonBody (Body.dict
      ⟨JVal.str "0", JVal.str "Rate limit reached",
       JVal.str "No transactions found"⟩) ∧
    get_transactions_run zeroJitter cfgDefault envSentinelWithMarker
      = .error (PyErr.exc (Exc.rateLimitError "Rate limit reached")) :=
  ⟨rfl, rfl⟩

/-- C7 (amended): for every envelope with status "0" whose result equals the
no-records sentinel "No transactions found" and whose message does not
contain the rate-limit marker, `get_transactions` returns the empty list and
propagates no error. -/
theorem C7_no_records_empty (jitter : Nat → ℚ) (cfg : EthereumAPIConfig)
    (env : Nat → TransportResult) (msg : JVal)
    (hm : strContains (pyLower (pyStr msg)) "rate limit" = false)
    (h1 : env 1 = TransportResult.jsonBody
      (Body.dict ⟨JVal.str "0", msg, JVal.str "No transactions found"⟩)) :
    get_transactions_run jitter cfg env = .ok (JVal.list []) := by
  have hc : strContains (pyLower (pyStr (JVal.str "No transactions found")))
      "rate limit" = false := by decide
  have hstep : requestAttempt cfg (env 1) = ([], .ok (JVal.list [])) := by
    rw [h1]
    simp only [requestAttempt, parseResponse, hm, hc]
    rfl
  simp only [get_transactions_run, executorRun, retryLoop, hstep]
  rfl

/-- C7 witness: the amended theorem evaluated on the spec's example envelope
(status "0", message absent — read as "" — and the sentinel result). -/
theorem C7_witness :
    strContains (pyLower (pyStr (JVal.str ""))) "rate limit" = false ∧
    get_transactions_run zeroJitter cfgDefault envNoTx
      = .ok (JVal.list []) :=
  ⟨rfl, C7_no_records_empty zeroJitter cfgDefault envNoTx (JVal.str "")
    rfl rfl⟩

/-- C8: `get_token_balance` with an unset (`None`) or empty contract address
returns `None` (the "absent" value) immediately and performs zero HTTP
attempts: the executor is never invoked, whatever the environment would have
answered. -/
theorem C8_empty_contract_no_network (jitter : Nat → ℚ)
    (cfg : EthereumAPIConfig) (env : Nat → TransportResult) (d : Nat) :
    get_token_balance_run jitter cfg env none d = (0, Except.ok none) ∧
    get_token_balance_run jitter cfg env (some "") d = (0, Except.ok none) :=
  ⟨rfl, rfl⟩

/-- C9: envelope classification is the shared `_parse_response`, so the
no-records sentinel is not operation-specific: on the envelope with status
"0" and result "No transactions found", the classifier yields the empty
list, `get_transactions` returns it, and `get_balance` / `get_token_balance`
convert it with `wei_to_eth` (whose `TypeError` handler yields 0.0), so both
return a zero balance without error. -/
theorem C9_sentinel_shared_classification (jitter : Nat → ℚ)
    (cfg : EthereumAPIConfig) :
    parseResponse cfg (Body.dict noTxEnvelope) = ([], .ok (JVal.list [])) ∧
    get_balance_run jitter cfg envNoTx = .ok 0 ∧
    get_token_balance_run jitter cfg envNoTx (some "0xc0ffee") 18
      = (1, .ok (some 0)) ∧
    get_transactions_run jitter cfg envNoTx = .ok (JVal.list []) :=
  ⟨rfl, rfl, rfl, rfl⟩

/-- C10: `_request` injects the API key into a fresh copy of the parameter
mapping (line 129 rebinds the local name to a new dict): the caller's mapping
is returned unchanged, the sent mapping carries the API key under "apikey",
and every other key reads the same in the sent mapping as in the caller's. -/
theorem C10_params_not_mutated (cfg : EthereumAPIConfig)
    (params : List (String × String)) (k : String) (hk : k ≠ "apikey") :
    (request_params cfg params).2 = params ∧
    dictGet (request_params cfg params).1 "apikey" = some cfg.api_key ∧
    dictGet (request_params cfg params).1 k = dictGet params k :=
  ⟨rfl, dictGet_dictSet_self "apikey" cfg.api_key params,
   dictGet_dictSet_ne "apikey" cfg.api_key k hk params⟩

/-- C10 witness: the theorem evaluated on the parameter mapping built by
`get_balance` under the default configuration, at the key "module". -/
theorem C10_witness :
    (request_params cfgDefault (balance_params cfgDefault)).2
      = balance_params cfgDefault ∧
    dictGet (request_params cfgDefault (balance_params cfgDefault)).1
      "apikey" = some cfgDefault.api_key ∧
    dictGet (request_params cfgDefault (balance_params cfgDefault)).1
      "module" = dictGet (balance_params cfgDefault) "module" :=
  C10_params_not_mutated cfgDefault (balance_params cfgDefault) "module"
    (by decide)
